import Mathlib

/-!
Verification development for the MCP tool-invocation client of this
repository (`tools.py`, `working_agent.py`, `perfect_agent.py`).

The Python code is shallowly embedded: the HTTP transport is modelled as
explicit response values (or response-producing functions of the request
headers, where the code's behaviour can depend on them), `json.loads` is
modelled as an explicit `String → Option JsonVal` argument (the external
`json` library; `none` models a raised `JSONDecodeError`), and Python
exceptions are modelled with `Except`.  All definitions are translated
from the source files line by line.
-/

namespace FridayJarvis

/-- A single-quote character, used when building Python-style repr strings. -/
def squote : String := (Char.ofNat 39).toString

/-- Python `str.split(sep)` on a list of characters: always yields at least
one (possibly empty) chunk, and a separator at either end yields an empty
chunk there, exactly like CPython. -/
def pySplit (sep : Char) : List Char → List (List Char)
  | [] => [[]]
  | c :: rest =>
    match pySplit sep rest with
    | [] => [[]]
    | l :: ls => if c = sep then [] :: l :: ls else (c :: l) :: ls

/-- ASCII whitespace as stripped by Python `str.strip()` (the inputs in this
development are ASCII). -/
def isPySpace (c : Char) : Bool :=
  c = ' ' || c = '\t' || c = '\n' || c = '\r' || c = Char.ofNat 11 || c = Char.ofNat 12

/-- Python `str.strip()` on a character list. -/
def pyStripList (cs : List Char) : List Char :=
  ((cs.dropWhile isPySpace).reverse.dropWhile isPySpace).reverse

/-- Python `str.strip()`. -/
def pyStrip (s : String) : String := String.mk (pyStripList s.toList)

/-- Python `s.startswith(p)`. -/
def pyStartsWith (p s : String) : Bool := p.toList.isPrefixOf s.toList

/-- Python `s[n:]`. -/
def pySliceFrom (n : Nat) (s : String) : String := String.mk (s.toList.drop n)

/-- Python `s[:n]`. -/
def pySliceTo (n : Nat) (s : String) : String := String.mk (s.toList.take n)

/-- Substring containment on character lists. -/
def listInfix (needle : List Char) : List Char → Bool
  | [] => needle.isEmpty
  | c :: rest => needle.isPrefixOf (c :: rest) || listInfix needle rest

/-- Python `needle in haystack` for strings (substring containment). -/
def pySubstr (needle hay : String) : Bool := listInfix needle.toList hay.toList

/-- Python `str.lower()` restricted to ASCII, which is all the code uses. -/
def pyToLower (s : String) : String :=
  String.mk (s.toList.map fun c =>
    if 'A' ≤ c ∧ c ≤ 'Z' then Char.ofNat (c.toNat + 32) else c)

/-- `resp.text.strip()` followed by `.split('\n')`, as both SSE-parsing loops
in `execute_mcp_tool` do. -/
def pyLines (body : String) : List String :=
  (pySplit '\n' (pyStripList body.toList)).map String.mk

/-- JSON values as produced by `json.loads`: the Python data model restricted
to what JSON can denote (numbers appear only as integers here; no claim
depends on float payloads). -/
inductive JsonVal where
  | null : JsonVal
  | bool : Bool → JsonVal
  | num : Int → JsonVal
  | str : String → JsonVal
  | arr : List JsonVal → JsonVal
  | obj : List (String × JsonVal) → JsonVal
deriving Repr

/-- First-match lookup in an object's field list (Python dicts have unique
keys, so first-match agrees with dict lookup). -/
def pyLookup (fs : List (String × JsonVal)) (k : String) : Option JsonVal :=
  (fs.find? fun p => p.1 == k).map (·.2)

/-- Python exceptions raised by the modelled operations.  All of them are
`Exception` subclasses, so the `except Exception` clause catches each. -/
inductive PyExc where
  | jsonDecodeError : PyExc
  | typeError : String → PyExc
  | keyError : String → PyExc
  | attributeError : String → PyExc
  | httpStatusError : Nat → PyExc
  | connectionError : String → PyExc
deriving Repr

/-- Python `needle in v` for a string needle: key membership for dicts,
element membership for lists (only an equal string element matches),
substring test for strings, `TypeError` otherwise. -/
def pyIn (needle : String) : JsonVal → Except PyExc Bool
  | .obj fs => .ok (pyLookup fs needle).isSome
  | .arr xs => .ok (xs.any fun v => match v with | .str s => s == needle | _ => false)
  | .str s => .ok (pySubstr needle s)
  | _ => .error (.typeError "argument of type is not iterable")

/-- Python `v[k]` for a string key: dict lookup (or `KeyError`); every other
type raises `TypeError`. -/
def pyGetItem : JsonVal → String → Except PyExc JsonVal
  | .obj fs, k =>
    match pyLookup fs k with
    | some v => .ok v
    | none => .error (.keyError k)
  | _, _ => .error (.typeError "indices must not be str")

/-- Python `v[0]`: list indexing, string indexing (yielding a one-character
string), `KeyError` for a dict with no such key, `TypeError` otherwise. -/
def pyGetIdxZero : JsonVal → Except PyExc JsonVal
  | .arr xs =>
    match xs with
    | [] => .error (.typeError "list index out of range")
    | x :: _ => .ok x
  | .str s =>
    match s.toList with
    | [] => .error (.typeError "string index out of range")
    | c :: _ => .ok (.str c.toString)
  | .obj _ => .error (.keyError "0")
  | _ => .error (.typeError "not subscriptable")

/-- Python `len(v)`: `TypeError` on non-sized values. -/
def pyLen : JsonVal → Except PyExc Nat
  | .arr xs => .ok xs.length
  | .str s => .ok s.length
  | .obj fs => .ok fs.length
  | _ => .error (.typeError "object has no len")

/-- Python truthiness of a JSON-derived value. -/
def pyTruthy : JsonVal → Bool
  | .null => false
  | .bool b => b
  | .num n => n ≠ 0
  | .str s => s ≠ ""
  | .arr xs => !xs.isEmpty
  | .obj fs => !fs.isEmpty

/-- Python `v.get(k, default)`: available on dicts only
(`AttributeError` otherwise). -/
def pyGet (v : JsonVal) (k : String) (dflt : JsonVal) : Except PyExc JsonVal :=
  match v with
  | .obj fs =>
    match pyLookup fs k with
    | some w => .ok w
    | none => .ok dflt
  | _ => .error (.attributeError "object has no attribute get")

mutual

/-- Python `repr` of a JSON-derived value (string escaping omitted: no input
in this development needs it). -/
def pyRepr : JsonVal → String
  | .null => "None"
  | .bool true => "True"
  | .bool false => "False"
  | .num n => toString n
  | .str s => squote ++ s ++ squote
  | .arr xs => "[" ++ pyReprList xs ++ "]"
  | .obj fs => "\x7b" ++ pyReprFields fs ++ "\x7d"

/-- Comma-separated reprs of list elements. -/
def pyReprList : List JsonVal → String
  | [] => ""
  | [x] => pyRepr x
  | x :: xs => pyRepr x ++ ", " ++ pyReprList xs

/-- Comma-separated reprs of dict entries. -/
def pyReprFields : List (String × JsonVal) → String
  | [] => ""
  | [(k, v)] => squote ++ k ++ squote ++ ": " ++ pyRepr v
  | (k, v) :: fs => squote ++ k ++ squote ++ ": " ++ pyRepr v ++ ", " ++ pyReprFields fs

end

/-- Python `str(v)`: identity on strings, `repr` otherwise (matching `str`
on dicts, lists, numbers, booleans and `None`). -/
def pyStr : JsonVal → String
  | .str s => s
  | v => pyRepr v

/-- `str(e)` for the modelled exceptions, as interpolated into the
`"An unexpected error occurred: ..."` outcome.  The `JSONDecodeError` text
is CPython's message for the concrete malformed payloads used here. -/
def excStr : PyExc → String
  | .jsonDecodeError => "Expecting value: line 1 column 1 (char 0)"
  | .typeError m => m
  | .keyError k => squote ++ k ++ squote
  | .attributeError m => m
  | .httpStatusError code => "HTTP status error " ++ toString code
  | .connectionError m => m

/-- One HTTP response as seen by `httpx`: status code, headers
(`httpx` matches header names case-insensitively) and body text. -/
structure HttpResponse where
  status : Nat
  headers : List (String × String)
  body : String

/-- Result of one `client.post`: either a response or a raised connection
error (`httpx.ConnectError` and friends, `Exception` subclasses). -/
inductive TransportResult where
  | ok : HttpResponse → TransportResult
  | connError : String → TransportResult

/-- `headers.get(name)` with `httpx`-style case-insensitive names; the code
always passes an already-lowercased `name`. -/
def headerGet (hs : List (String × String)) (name : String) : Option String :=
  (hs.find? fun p => pyToLower p.1 == name).map (·.2)

/-- The candidate session-header names scanned, in order
(`tools.py` line 85). -/
def sessionHeaderCandidates : List String :=
  ["mcp-session-id", "x-session-id", "session-id"]

/-- The header scan of `tools.py` lines 85-90: first candidate whose value is
present and truthy (non-empty) wins; otherwise no session id. -/
def findSessionIdFrom (hs : List (String × String)) : List String → Option String
  | [] => none
  | n :: rest =>
    match headerGet hs (pyToLower n) with
    | some v => if v ≠ "" then some v else findSessionIdFrom hs rest
    | none => findSessionIdFrom hs rest

/-- Session-id extraction from the initialize response headers. -/
def findSessionId (hs : List (String × String)) : Option String :=
  findSessionIdFrom hs sessionHeaderCandidates

/-- Headers of the `notifications/initialized` request
(`tools.py` lines 114-118); only sent when a session id was found. -/
def notifyHeaders (sid : String) : List (String × String) :=
  [("Content-Type", "application/json"),
   ("Accept", "application/json, text/event-stream"),
   ("mcp-session-id", sid)]

/-- Headers of the `tools/call` request (`tools.py` lines 137-145): the base
headers, plus `mcp-session-id` exactly when a session id was found. -/
def toolHeaders : Option String → List (String × String)
  | none =>
    [("Content-Type", "application/json"),
     ("Accept", "application/json, text/event-stream"),
     ("Connection", "keep-alive")]
  | some sid =>
    [("Content-Type", "application/json"),
     ("Accept", "application/json, text/event-stream"),
     ("Connection", "keep-alive"),
     ("mcp-session-id", sid)]

/-- The tool names subject to board enforcement (`tools.py` line 34). -/
def enforcedToolNames : List String :=
  ["monday_create_item", "monday_get_board_groups", "monday_get_board_columns"]

/-- `tools.py` lines 31-36: `enforced_parameters = dict(parameters)` (a copy
of the caller's mapping — the original is never mutated, which the embedding
reflects by returning a fresh list), then `boardId` is injected only when the
tool is one of the enforced ones and the caller did not supply it. -/
def enforcedParameters (boardId : String) (toolName : String)
    (parameters : List (String × JsonVal)) : List (String × JsonVal) :=
  if enforcedToolNames.contains toolName && (pyLookup parameters "boardId").isNone then
    parameters ++ [("boardId", .str boardId)]
  else
    parameters

/-- The initialize-response SSE loop (`tools.py` lines 93-100).  Note that,
unlike the tool-response loop, this loop has no `try/except` around
`json.loads`: a malformed data line raises `JSONDecodeError` out of the loop.
On the first data line whose message has a `"result"` key it reads
`init_result["result"]["serverInfo"]` and its `name`/`version` fields
(each access can raise) and breaks. -/
def initScanLines (loads : String → Option JsonVal) : List String → Except PyExc Unit
  | [] => .ok ()
  | line :: rest =>
    if pyStartsWith "data: " line then
      match loads (pySliceFrom 6 line) with
      | none => .error .jsonDecodeError
      | some initResult =>
        match pyIn "result" initResult with
        | .error e => .error e
        | .ok true =>
          match pyGetItem initResult "result" with
          | .error e => .error e
          | .ok r =>
            match pyGetItem r "serverInfo" with
            | .error e => .error e
            | .ok si =>
              match pyGetItem si "name" with
              | .error e => .error e
              | .ok _ =>
                match pyGetItem si "version" with
                | .error e => .error e
                | .ok _ => .ok ()
        | .ok false => initScanLines loads rest
    else initScanLines loads rest

/-- The fixed success mapping returned when a result carries no content
(`tools.py` lines 188 and 190). -/
def successResult : JsonVal := .obj [("result", .str "Tool executed successfully")]

/-- The mapping returned for the FastMCP transport-limitation case
(`tools.py` lines 197-202). -/
def transportIssueResult (toolName : String) : JsonVal :=
  .obj [("error", .str "FastMCP HTTP transport limitation - using fallback mode"),
        ("status", .str "mcp_transport_issue"),
        ("detail", .str ("Tool " ++ squote ++ toolName ++ squote ++
          " request successful but FastMCP HTTP transport has known limitations")),
        ("suggestion", .str "MCP server is working perfectly - this is a FastMCP HTTP transport issue")]

/-- The fall-through mapping when no significant message is found
(`tools.py` line 208). -/
def parseFailResult : JsonVal := .obj [("error", .str "Failed to parse MCP server response")]

/-- Processing of one successfully decoded tool-response message
(`tools.py` lines 166-204).  `ok none` means neither branch returned and the
loop continues with the next line. -/
def toolLineBody (loads : String → Option JsonVal) (toolName : String)
    (toolResult : JsonVal) : Except PyExc (Option JsonVal) :=
  match pyIn "result" toolResult with
  | .error e => .error e
  | .ok true =>
    match pyGetItem toolResult "result" with
    | .error e => .error e
    | .ok result =>
      match pyIn "content" result with
      | .error e => .error e
      | .ok false => .ok (some successResult)
      | .ok true =>
        match pyGetItem result "content" with
        | .error e => .error e
        | .ok contentList =>
          if pyTruthy contentList then
            match pyLen contentList with
            | .error e => .error e
            | .ok n =>
              if n > 0 then
                match pyGetIdxZero contentList with
                | .error e => .error e
                | .ok contentItem =>
                  match pyIn "text" contentItem with
                  | .error e => .error e
                  | .ok true =>
                    match pyGetItem contentItem "text" with
                    | .error e => .error e
                    | .ok textContent =>
                      match textContent with
                      | .str s =>
                        if pyStartsWith "\x7b" (pyStrip s) || pyStartsWith "[" (pyStrip s) then
                          match loads s with
                          | some v => .ok (some v)
                          | none => .ok (some (.obj [("result", .str s)]))
                        else .ok (some (.obj [("result", .str s)]))
                      | _ => .error (.attributeError "object has no attribute strip")
                  | .ok false => .ok (some (.obj [("result", .str (pyStr contentItem))]))
              else .ok (some successResult)
          else .ok (some successResult)
  | .ok false =>
    match pyIn "error" toolResult with
    | .error e => .error e
    | .ok false => .ok none
    | .ok true =>
      match pyGetItem toolResult "error" with
      | .error e => .error e
      | .ok errVal =>
        match pyGet errVal "message" (.str "Unknown MCP error") with
        | .error e => .error e
        | .ok errorMsg =>
          match pyIn "Invalid request parameters" errorMsg with
          | .error e => .error e
          | .ok true => .ok (some (transportIssueResult toolName))
          | .ok false => .ok (some (.obj [("error", errorMsg)]))

/-- The tool-response SSE loop (`tools.py` lines 161-206): non-data lines are
skipped; a data line whose payload fails `json.loads` is skipped by the
`except json.JSONDecodeError: continue` clause; a decoded message is handed
to `toolLineBody`, whose `return` short-circuits the loop and whose other
exceptions propagate. -/
def toolScanLines (loads : String → Option JsonVal) (toolName : String) :
    List String → Except PyExc (Option JsonVal)
  | [] => .ok none
  | line :: rest =>
    if pyStartsWith "data: " line then
      match loads (pySliceFrom 6 line) with
      | none => toolScanLines loads toolName rest
      | some m =>
        match toolLineBody loads toolName m with
        | .error .jsonDecodeError => toolScanLines loads toolName rest
        | .error e => .error e
        | .ok (some v) => .ok (some v)
        | .ok none => toolScanLines loads toolName rest
    else toolScanLines loads toolName rest

/-- The decoded-message sequence produced by the SSE line discipline shared
by the loops of `execute_mcp_tool`: one message per line starting with
`data: ` whose payload decodes, all other lines skipped. -/
def sseDecode (loads : String → Option JsonVal) : List String → List JsonVal
  | [] => []
  | line :: rest =>
    if pyStartsWith "data: " line then
      match loads (pySliceFrom 6 line) with
      | some j => j :: sseDecode loads rest
      | none => sseDecode loads rest
    else sseDecode loads rest

/-- The body of the `try` block of `execute_mcp_tool` (`tools.py` lines
40-208): initialize POST and `raise_for_status`, header scan, init SSE loop,
conditional `notifications/initialized` POST (status unchecked), tool-call
POST and `raise_for_status`, tool SSE loop.  `httpx`'s `raise_for_status`
raises `HTTPStatusError` for every response outside the 2xx range —
informational, redirect, client-error and server-error alike (the client
does not follow redirects here).  The two conditional POSTs are modelled as
functions of the request headers they are sent with (the enforced arguments
are the tool request's payload). -/
def runCall (loads : String → Option JsonVal) (toolName : String)
    (enforced : List (String × JsonVal))
    (initResp : TransportResult)
    (notifyPost : List (String × String) → TransportResult)
    (toolPost : List (String × String) → List (String × JsonVal) → TransportResult) :
    Except PyExc JsonVal :=
  match initResp with
  | .connError m => .error (.connectionError m)
  | .ok ir =>
    if ir.status < 200 ∨ 300 ≤ ir.status then .error (.httpStatusError ir.status)
    else
      match initScanLines loads (pyLines ir.body) with
      | .error e => .error e
      | .ok () =>
        match findSessionId ir.headers with
        | some sid =>
          match notifyPost (notifyHeaders sid) with
          | .connError m => .error (.connectionError m)
          | .ok _ =>
            match toolPost (toolHeaders (some sid)) enforced with
            | .connError m => .error (.connectionError m)
            | .ok tr =>
              if tr.status < 200 ∨ 300 ≤ tr.status then .error (.httpStatusError tr.status)
              else
                match toolScanLines loads toolName (pyLines tr.body) with
                | .error e => .error e
                | .ok (some v) => .ok v
                | .ok none => .ok parseFailResult
        | none =>
          match toolPost (toolHeaders none) enforced with
          | .connError m => .error (.connectionError m)
          | .ok tr =>
            if tr.status < 200 ∨ 300 ≤ tr.status then .error (.httpStatusError tr.status)
            else
              match toolScanLines loads toolName (pyLines tr.body) with
              | .error e => .error e
              | .ok (some v) => .ok v
              | .ok none => .ok parseFailResult

/-- Truthiness of an `os.getenv` result (`None` and the empty string are
falsy). -/
def optTruthy : Option String → Bool
  | none => false
  | some s => s ≠ ""

/-- The mapping built by the `except httpx.HTTPStatusError` clause
(`tools.py` line 212). -/
def httpErrorResult (code : Nat) : JsonVal :=
  .obj [("error", .str ("MCP server HTTP error: " ++ toString code))]

/-- The mapping built by the `except Exception` clause (`tools.py`
line 215). -/
def unexpectedErrorResult (e : PyExc) : JsonVal :=
  .obj [("error", .str ("An unexpected error occurred: " ++ excStr e))]

/-- `execute_mcp_tool` (`tools.py` lines 20-215).  The configuration check
(lines 25-26) raises `ValueError` before the `try` block, so it propagates to
the caller: that is the `Except.error` case.  Everything inside the `try` is
converted to a returned mapping: `httpx.HTTPStatusError` first, then any
other `Exception`. -/
def execute_mcp_tool (mondayBoardId mcpServerUrl : Option String)
    (loads : String → Option JsonVal)
    (toolName : String) (parameters : List (String × JsonVal))
    (initResp : TransportResult)
    (notifyPost : List (String × String) → TransportResult)
    (toolPost : List (String × String) → List (String × JsonVal) → TransportResult) :
    Except String JsonVal :=
  if !optTruthy mondayBoardId || !optTruthy mcpServerUrl then
    .error "MONDAY_BOARD_ID and MCP_SERVER_URL must be set in the .env file."
  else
    let enforced := enforcedParameters (mondayBoardId.getD "") toolName parameters
    .ok (match runCall loads toolName enforced initResp notifyPost toolPost with
      | .ok v => v
      | .error (.httpStatusError code) => httpErrorResult code
      | .error e => unexpectedErrorResult e)

/-! Classification of extracted result text in `working_agent.py`,
`create_monday_task_real`, lines 50-59. -/

/-- `working_agent.py` line 51. -/
def workingIssueMsg (t : String) : String :=
  "I encountered an issue creating task " ++ squote ++ t ++ squote ++
    ", Sir. The Monday.com integration needs adjustment."

/-- `working_agent.py` line 53. -/
def workingConflictMsg (t : String) : String :=
  "Task " ++ squote ++ t ++ squote ++
    " has a parameter conflict, Sir. The board structure may need updating, but I" ++
    squote ++ "ve noted the request."

/-- `working_agent.py` line 55. -/
def workingSuccessMsg (t : String) : String :=
  "Perfect! Task " ++ squote ++ t ++ squote ++
    " has been successfully created in your Paid Media CRM board, Sir!"

/-- `working_agent.py` line 57. -/
def workingProcessedMsg (t s : String) : String :=
  "Task " ++ squote ++ t ++ squote ++
    " has been processed in your Monday.com workspace, Sir. Status: " ++
    pySliceTo 100 s ++ "..."

/-- `working_agent.py` line 59. -/
def workingAllSortedMsg (t : String) : String :=
  "Task " ++ squote ++ t ++ squote ++
    " has been created in your Monday.com board, Sir. All sorted!"

/-- The `if/elif` cascade of `working_agent.py` lines 50-59 applied to the
extracted result text: the case-insensitive `"error"` test runs first, then
the `"You can set either"` conflict marker, then the success markers. -/
def workingClassify (taskName resultText : String) : String :=
  if pySubstr "error" (pyToLower resultText) then workingIssueMsg taskName
  else if pySubstr "You can set either" resultText then workingConflictMsg taskName
  else if pySubstr "successfully" (pyToLower resultText) ||
      pySubstr "created" (pyToLower resultText) then workingSuccessMsg taskName
  else if resultText ≠ "" then workingProcessedMsg taskName resultText
  else workingAllSortedMsg taskName

/-! Classification in `perfect_agent.py`, `task_follow_up`, lines 108-114,
which operates on `str(result)` for the mapping returned by
`execute_mcp_tool`. -/

/-- `perfect_agent.py` line 110. -/
def perfectSuccessMsg (t : String) : String :=
  "Task " ++ squote ++ t ++ squote ++
    " has been successfully created in your Paid Media CRM board, Sir!"

/-- `perfect_agent.py` line 112. -/
def perfectConflictMsg (t : String) : String :=
  "Task " ++ squote ++ t ++ squote ++
    " creation encountered a parameter conflict, Sir. The board structure may need adjustment."

/-- `perfect_agent.py` line 114. -/
def perfectProcessingMsg (t : String) : String :=
  "Task " ++ squote ++ t ++ squote ++
    " creation is being processed in your Monday.com workspace, Sir."

/-- `perfect_agent.py` lines 108-114: the follow-up text chosen from
`str(result)`. -/
def taskFollowUpMsg (taskName : String) (result : JsonVal) : String :=
  let s := pyStr result
  if !pySubstr "error" s && !pySubstr "You can set either" s then perfectSuccessMsg taskName
  else if pySubstr "You can set either" s then perfectConflictMsg taskName
  else perfectProcessingMsg taskName

/-- The ambiguous-parameter server text of testable property 7 of the spec. -/
def conflictText : String :=
  "Error: You can set either board_id or group_id, not both"

/-! Concrete fixtures: JSON payload strings paired with their real
`json.loads` values, assembled into one explicit `loads` table used by the
closed scenario theorems below. -/

/-- A well-formed initialize result message (payload text). -/
def initGoodPayload : String :=
  "\x7b\"jsonrpc\": \"2.0\", \"id\": 1, \"result\": \x7b\"protocolVersion\": \"2024-11-05\", \"serverInfo\": \x7b\"name\": \"monday-mcp\", \"version\": \"1.0.0\"\x7d\x7d\x7d"

/-- `json.loads initGoodPayload`. -/
def initGoodMsg : JsonVal :=
  .obj [("jsonrpc", .str "2.0"), ("id", .num 1),
        ("result", .obj [("protocolVersion", .str "2024-11-05"),
                         ("serverInfo", .obj [("name", .str "monday-mcp"),
                                              ("version", .str "1.0.0")])])]

/-- A tool-call result message whose `id` is 1, not the request id 2. -/
def c3FirstPayload : String :=
  "\x7b\"jsonrpc\": \"2.0\", \"id\": 1, \"result\": \x7b\"content\": [\x7b\"type\": \"text\", \"text\": \"FIRST\"\x7d]\x7d\x7d"

/-- `json.loads c3FirstPayload`. -/
def c3FirstMsg : JsonVal :=
  .obj [("jsonrpc", .str "2.0"), ("id", .num 1),
        ("result", .obj [("content", .arr [.obj [("type", .str "text"), ("text", .str "FIRST")]])])]

/-- A tool-call result message whose `id` is the request id 2. -/
def c3SecondPayload : String :=
  "\x7b\"jsonrpc\": \"2.0\", \"id\": 2, \"result\": \x7b\"content\": [\x7b\"type\": \"text\", \"text\": \"SECOND\"\x7d]\x7d\x7d"

/-- `json.loads c3SecondPayload`. -/
def c3SecondMsg : JsonVal :=
  .obj [("jsonrpc", .str "2.0"), ("id", .num 2),
        ("result", .obj [("content", .arr [.obj [("type", .str "text"), ("text", .str "SECOND")]])])]

/-- A tool-call result message whose content text is the creation-success
text of testable property 7 of the spec. -/
def createSuccessPayload : String :=
  "\x7b\"jsonrpc\": \"2.0\", \"id\": 2, \"result\": \x7b\"content\": [\x7b\"type\": \"text\", \"text\": \"Item created successfully\"\x7d]\x7d\x7d"

/-- `json.loads createSuccessPayload`. -/
def createSuccessMsg : JsonVal :=
  .obj [("jsonrpc", .str "2.0"), ("id", .num 2),
        ("result", .obj [("content", .arr [.obj [("type", .str "text"),
                                                 ("text", .str "Item created successfully")]])])]

/-- A content text that is itself JSON: an object with neither a `result`
nor an `error` key. -/
def c7InnerText : String := "\x7b\"a\": 1\x7d"

/-- `json.loads c7InnerText`. -/
def c7InnerVal : JsonVal := .obj [("a", .num 1)]

/-- A tool-call result message whose content text is `c7InnerText`
(JSON string escaping: the inner quotes are escaped in the payload). -/
def c7Payload : String :=
  "\x7b\"jsonrpc\": \"2.0\", \"id\": 2, \"result\": \x7b\"content\": [\x7b\"type\": \"text\", \"text\": \"\x7b\\\"a\\\": 1\x7d\"\x7d]\x7d\x7d"

/-- `json.loads c7Payload`. -/
def c7Msg : JsonVal :=
  .obj [("jsonrpc", .str "2.0"), ("id", .num 2),
        ("result", .obj [("content", .arr [.obj [("type", .str "text"),
                                                 ("text", .str c7InnerText)]])])]

/-- A tool-call result message with an empty `content` list. -/
def emptyContentPayload : String :=
  "\x7b\"jsonrpc\": \"2.0\", \"id\": 2, \"result\": \x7b\"content\": []\x7d\x7d"

/-- `json.loads emptyContentPayload`. -/
def emptyContentMsg : JsonVal :=
  .obj [("jsonrpc", .str "2.0"), ("id", .num 2),
        ("result", .obj [("content", .arr [])])]

/-- The explicit `json.loads` table for the closed scenarios: each mapped
string is real JSON and its value is its real parse; every other string
(such as the malformed payload `"bad"`) fails to decode. -/
def loadsFix : String → Option JsonVal := fun s =>
  if s = initGoodPayload then some initGoodMsg
  else if s = c3FirstPayload then some c3FirstMsg
  else if s = c3SecondPayload then some c3SecondMsg
  else if s = createSuccessPayload then some createSuccessMsg
  else if s = c7Payload then some c7Msg
  else if s = c7InnerText then some c7InnerVal
  else if s = emptyContentPayload then some emptyContentMsg
  else none

/-- A plain 200 response with no headers. -/
def okResp (body : String) : TransportResult :=
  .ok { status := 200, headers := [], body := body }

/-- A POST stub that ignores its headers. -/
def postConst (r : TransportResult) : List (String × String) → TransportResult :=
  fun _ => r

/-- A tool-POST stub that ignores headers and arguments. -/
def toolPostConst (r : TransportResult) :
    List (String × String) → List (String × JsonVal) → TransportResult :=
  fun _ _ => r

/-- Exactly one of the two observable outcome keys is present (only a
mapping can satisfy this). -/
def exactlyOneKey : JsonVal → Bool
  | .obj fs => ((pyLookup fs "result").isSome) != ((pyLookup fs "error").isSome)
  | _ => false

/-- Tool-response body for the id-selection scenario: the id-1 message
precedes the id-2 message in the stream. -/
def c3ToolBody : String :=
  "data: " ++ c3FirstPayload ++ "\n" ++ "data: " ++ c3SecondPayload

/-- Initialize-response body with a malformed data line before a valid
one. -/
def c4InitBodyBad : String := "data: bad\n" ++ "data: " ++ initGoodPayload

/-- The same initialize-response body with the malformed line removed. -/
def c4InitBodyGood : String := "data: " ++ initGoodPayload

/-- Tool-response body carrying the creation-success message. -/
def successToolBody : String := "data: " ++ createSuccessPayload

/-- Tool-response body whose content text is itself JSON. -/
def c7ToolBody : String := "data: " ++ c7Payload

/-- Tool-response body whose result has an empty `content` list. -/
def emptyContentToolBody : String := "data: " ++ emptyContentPayload

end FridayJarvis

namespace FridayJarvis

/-! ### Helper lemmas -/

/-- Lookup in an appended field list: the left list wins. -/
theorem pyLookup_append (A B : List (String × JsonVal)) (k : String) :
    pyLookup (A ++ B) k
      = match pyLookup A k with
        | some v => some v
        | none => pyLookup B k := by
  induction A with
  | nil => simp [pyLookup]
  | cons p A ih =>
    by_cases hp : p.1 == k
    · simp [pyLookup, List.find?, hp]
    · have hp' : (p.1 == k) = false := by simpa using hp
      simp only [pyLookup, List.cons_append, List.find?, hp']
      simpa [pyLookup] using ih

/-! ### Claim C2 — parameter enforcement -/

/-- Claim C2: for every argument mapping and tool with the policy-required
key `boardId`: if the key is supplied, enforcement returns the mapping
unchanged (so the supplied value is untouched); if absent and the tool is
policy-enforced, the key is set to the configured board value; no other key
is ever affected.  Non-mutation of the caller's mapping holds by
construction: the code copies with `dict(parameters)` before writing, which
the embedding reflects by building a fresh list. -/
theorem enforcedParameters_spec (b tn : String) (A : List (String × JsonVal)) :
    ((pyLookup A "boardId").isSome = true → enforcedParameters b tn A = A)
    ∧ (pyLookup A "boardId" = none → enforcedToolNames.contains tn = true →
        pyLookup (enforcedParameters b tn A) "boardId" = some (.str b))
    ∧ (∀ k, k ≠ "boardId" → pyLookup (enforcedParameters b tn A) k = pyLookup A k) := by
  refine ⟨?_, ?_, ?_⟩
  · intro h
    unfold enforcedParameters
    rcases hl : pyLookup A "boardId" with _ | v
    · rw [hl] at h; simp at h
    · simp [hl]
  · intro h ht
    unfold enforcedParameters
    simp only [ht, h, Option.isNone_none, Bool.and_true, if_true]
    rw [pyLookup_append, h]
    simp [pyLookup]
  · intro k hk
    unfold enforcedParameters
    split
    · rw [pyLookup_append]
      rcases hl : pyLookup A k with _ | v
      · simp [pyLookup, hk, Ne.symm hk]
      · simp
    · rfl

/-- Witness for C2 at a concrete call: the caller omits `boardId` for
`monday_create_item`, so the configured board is injected; an unrelated key
is untouched. -/
theorem enforcedParameters_spec_witness :
    pyLookup (enforcedParameters "2034046752" "monday_create_item"
        [("itemTitle", .str "Buy milk")]) "boardId" = some (.str "2034046752")
    ∧ pyLookup (enforcedParameters "2034046752" "monday_create_item"
        [("itemTitle", .str "Buy milk")]) "itemTitle" = some (.str "Buy milk") := by
  constructor
  · exact (enforcedParameters_spec "2034046752" "monday_create_item"
      [("itemTitle", .str "Buy milk")]).2.1 rfl rfl
  · exact ((enforcedParameters_spec "2034046752" "monday_create_item"
      [("itemTitle", .str "Buy milk")]).2.2 "itemTitle" (by decide)).trans rfl

/-! ### Claim C8 — missing configuration is raised per call -/

/-- Claim C8 (amended): when `MONDAY_BOARD_ID` or `MCP_SERVER_URL` is unset
(or empty), `execute_mcp_tool` raises a `ValueError` to its caller on every
invocation — the check happens inside the per-call entry point, before the
`try` block, and is not converted into an error mapping. -/
theorem missing_config_raises (b u : Option String)
    (loads : String → Option JsonVal) (tn : String) (ps : List (String × JsonVal))
    (i : TransportResult) (np : List (String × String) → TransportResult)
    (tp : List (String × String) → List (String × JsonVal) → TransportResult)
    (h : optTruthy b = false ∨ optTruthy u = false) :
    execute_mcp_tool b u loads tn ps i np tp
      = .error "MONDAY_BOARD_ID and MCP_SERVER_URL must be set in the .env file." := by
  rcases h with h | h <;> simp [execute_mcp_tool, h]

/-- Witness for C8's amended theorem: empty-string server URL. -/
theorem missing_config_raises_witness :
    execute_mcp_tool (some "2034046752") (some "") loadsFix "monday_create_item" []
      (okResp "") (postConst (okResp "")) (toolPostConst (okResp ""))
      = .error "MONDAY_BOARD_ID and MCP_SERVER_URL must be set in the .env file." :=
  missing_config_raises _ _ _ _ _ _ _ _ (Or.inr rfl)

/-- Counterexample for C8 as stated: with `MONDAY_BOARD_ID` unset, a tool
invocation raises (returns `Except.error`, the model of an uncaught
`ValueError`) instead of being a startup-only condition that per-call
invocations never surface. -/
theorem missing_config_cex :
    execute_mcp_tool none (some "http://localhost:3000/mcp") loadsFix
      "monday_create_item" [("itemTitle", .str "X")]
      (okResp "") (postConst (okResp "")) (toolPostConst (okResp ""))
      = .error "MONDAY_BOARD_ID and MCP_SERVER_URL must be set in the .env file." := rfl

/-! ### Claim C1 — the entry point never propagates expected failures -/

/-- Claim C1: with both configuration values present, `execute_mcp_tool`
always returns an outcome mapping (`Except.ok`), for every transport model,
decode function and response: no raised exception reaches the caller.
Moreover the expected failures map to error outcomes: a connection error
during the handshake yields the `"An unexpected error occurred"` mapping,
and a non-2xx handshake status yields the `"MCP server HTTP error"`
mapping. -/
theorem execute_mcp_tool_total (b u : Option String)
    (loads : String → Option JsonVal) (tn : String) (ps : List (String × JsonVal))
    (np : List (String × String) → TransportResult)
    (tp : List (String × String) → List (String × JsonVal) → TransportResult)
    (hb : optTruthy b = true) (hu : optTruthy u = true) :
    (∀ i, ∃ v, execute_mcp_tool b u loads tn ps i np tp = .ok v)
    ∧ (∀ m, execute_mcp_tool b u loads tn ps (.connError m) np tp
        = .ok (unexpectedErrorResult (.connectionError m)))
    ∧ (∀ st hs body, 400 ≤ st →
        execute_mcp_tool b u loads tn ps (.ok ⟨st, hs, body⟩) np tp
        = .ok (httpErrorResult st)) := by
  have hcond : (!optTruthy b || !optTruthy u) = false := by rw [hb, hu]; rfl
  refine ⟨?_, ?_, ?_⟩
  · intro i
    unfold execute_mcp_tool
    simp only [hcond, Bool.false_eq_true, ite_false]
    exact ⟨_, rfl⟩
  · intro m
    simp [execute_mcp_tool, hb, hu, runCall]
  · intro st hs body h
    have h' : st < 200 ∨ 300 ≤ st := Or.inr (by omega)
    simp [execute_mcp_tool, hb, hu, runCall, h']

/-- Witness for C1: a refused connection at the handshake comes back as an
error mapping, not a raised fault. -/
theorem execute_mcp_tool_total_witness :
    execute_mcp_tool (some "2034046752") (some "http://localhost:3000/mcp") loadsFix
      "monday_create_item" [("itemTitle", .str "X")]
      (.connError "Connection refused") (postConst (okResp "")) (toolPostConst (okResp ""))
      = .ok (unexpectedErrorResult (.connectionError "Connection refused")) :=
  (execute_mcp_tool_total (some "2034046752") (some "http://localhost:3000/mcp") loadsFix
    "monday_create_item" [("itemTitle", .str "X")]
    (postConst (okResp "")) (toolPostConst (okResp "")) rfl rfl).2.1 "Connection refused"

/-! ### Claim C5 — success and conflict classification -/

/-- Counterexample for C5 as stated: on the extracted text
`"Error: You can set either board_id or group_id, not both"`,
`create_monday_task_real` in `working_agent.py` answers with its
error/issue response, not its parameter-conflict response, because the
case-insensitive `"error"` test (which the text's leading `"Error:"`
satisfies) runs before the `"You can set either"` marker test. -/
theorem workingClassify_conflict_cex :
    workingClassify "Uruk" conflictText = workingIssueMsg "Uruk"
    ∧ workingIssueMsg "Uruk" ≠ workingConflictMsg "Uruk" := by
  exact ⟨rfl, by decide⟩

/-- Claim C5 (amended): the success text `"Item created successfully"` is
classified as success both by `working_agent.py`'s cascade and by
`perfect_agent.py`'s follow-up; the conflict text is classified as a
parameter conflict by `perfect_agent.py`'s follow-up (the
`"You can set either"` marker is matched there), but `working_agent.py`
classifies it as an error because its case-insensitive `"error"` test runs
first. -/
theorem classification_success_and_conflict :
    workingClassify "Uruk" "Item created successfully" = workingSuccessMsg "Uruk"
    ∧ taskFollowUpMsg "Uruk" (.obj [("result", .str "Item created successfully")])
        = perfectSuccessMsg "Uruk"
    ∧ taskFollowUpMsg "Uruk" (.obj [("result", .str conflictText)])
        = perfectConflictMsg "Uruk"
    ∧ workingClassify "Uruk" conflictText = workingIssueMsg "Uruk" := by
  exact ⟨rfl, rfl, rfl, rfl⟩

/-! ### Claim C3 — response selection ignores the message id -/

/-- `pyIn` never raises `JSONDecodeError`. -/
theorem pyIn_ne_jde (k : String) (v : JsonVal) : pyIn k v ≠ .error .jsonDecodeError := by
  cases v <;> simp [pyIn]

/-- `pyGetItem` never raises `JSONDecodeError`. -/
theorem pyGetItem_ne_jde (v : JsonVal) (k : String) :
    pyGetItem v k ≠ .error .jsonDecodeError := by
  cases v <;> simp [pyGetItem]
  split <;> simp

/-- `pyGetIdxZero` never raises `JSONDecodeError`. -/
theorem pyGetIdxZero_ne_jde (v : JsonVal) :
    pyGetIdxZero v ≠ .error .jsonDecodeError := by
  cases v <;> simp [pyGetIdxZero]
  all_goals (split <;> simp)

/-- `pyLen` never raises `JSONDecodeError`. -/
theorem pyLen_ne_jde (v : JsonVal) : pyLen v ≠ .error .jsonDecodeError := by
  cases v <;> simp [pyLen]

/-- `pyGet` never raises `JSONDecodeError`. -/
theorem pyGet_ne_jde (v : JsonVal) (k : String) (d : JsonVal) :
    pyGet v k d ≠ .error .jsonDecodeError := by
  cases v <;> simp [pyGet]
  split <;> simp

/-- The per-message body never raises `JSONDecodeError` (its inner
`json.loads` is guarded by its own `except` clause), so the loop's
`except json.JSONDecodeError: continue` never fires for it. -/
theorem toolLineBody_ne_jde (loads : String → Option JsonVal) (tn : String)
    (m : JsonVal) : toolLineBody loads tn m ≠ .error .jsonDecodeError := by
  intro h
  unfold toolLineBody at h
  repeat' split at h
  all_goals
    simp_all [pyIn_ne_jde, pyGetItem_ne_jde, pyGetIdxZero_ne_jde, pyLen_ne_jde, pyGet_ne_jde]

/-- If the per-message body falls through (no `return` executed), the
message had neither a `result` nor an `error` key. -/
theorem toolLineBody_ok_none (loads : String → Option JsonVal) (tn : String)
    (m : JsonVal) (h : toolLineBody loads tn m = .ok none) :
    pyIn "result" m = .ok false ∧ pyIn "error" m = .ok false := by
  unfold toolLineBody at h
  repeat' split at h
  all_goals simp_all

/-- Claim C3 (amended): the tool-response loop commits to the first data
line whose decoded message has a `"result"` or `"error"` key — the outcome
is independent of everything after that line, so the `id` field is never
consulted and a message with a non-matching id is not ignored. -/
theorem toolScan_first_significant_decides (loads : String → Option JsonVal)
    (tn line : String) (m : JsonVal) (rest rest' : List String)
    (h1 : pyStartsWith "data: " line = true)
    (h2 : loads (pySliceFrom 6 line) = some m)
    (h3 : pyIn "result" m = .ok true ∨ pyIn "error" m = .ok true) :
    toolScanLines loads tn (line :: rest) = toolScanLines loads tn (line :: rest') := by
  have hne := toolLineBody_ne_jde loads tn m
  have hnone : toolLineBody loads tn m ≠ .ok none := by
    intro h
    rcases toolLineBody_ok_none loads tn m h with ⟨hr, he⟩
    rcases h3 with h3 | h3
    · rw [hr] at h3; simp at h3
    · rw [he] at h3; simp at h3
  simp only [toolScanLines, h1, if_true, h2]
  rcases htlb : toolLineBody loads tn m with e | v
  · cases e <;> simp_all
  · rcases v with _ | v
    · exact absurd htlb hnone
    · simp

set_option maxRecDepth 100000 in
/-- Witness for C3's amended theorem: the id-1 message is the committing
line; the tail of the stream (with or without the id-2 message) does not
change the outcome. -/
theorem toolScan_first_significant_decides_witness :
    toolScanLines loadsFix "monday_create_item"
        [("data: " ++ c3FirstPayload), ("data: " ++ c3SecondPayload)]
      = toolScanLines loadsFix "monday_create_item" [("data: " ++ c3FirstPayload)] :=
  toolScan_first_significant_decides loadsFix "monday_create_item"
    ("data: " ++ c3FirstPayload) c3FirstMsg _ _ rfl rfl (Or.inl rfl)

set_option maxRecDepth 100000 in
/-- Counterexample for C3 as stated: the request is sent with id 2, the
stream carries an id-1 result message (text `"FIRST"`) before the id-2
result message (text `"SECOND"`), and the returned outcome is built from
the id-1 message — it is not ignored. -/
theorem execute_uses_wrong_id_cex :
    execute_mcp_tool (some "2034046752") (some "http://localhost:3000/mcp") loadsFix
      "monday_create_item" [("itemTitle", .str "X")]
      (okResp "") (postConst (okResp "")) (toolPostConst (okResp c3ToolBody))
      = .ok (.obj [("result", .str "FIRST")])
    ∧ (.obj [("result", .str "FIRST")] : JsonVal) ≠ .obj [("result", .str "SECOND")] := by
  refine ⟨rfl, ?_⟩
  intro h
  simp only [JsonVal.obj.injEq, List.cons.injEq, Prod.mk.injEq, JsonVal.str.injEq] at h
  exact absurd h.1.2 (by decide)

/-! ### Claim C4 — stream decoding skips junk lines -/

/-- The tool-response loop is the significant-message scan of the decoded
message sequence: filtering and decoding of lines commutes with the
per-message processing. -/
theorem toolScanLines_eq_sseDecode (loads : String → Option JsonVal) (tn : String)
    (lines : List String) :
    toolScanLines loads tn lines
      = (sseDecode loads lines).foldr
          (fun m acc =>
            match toolLineBody loads tn m with
            | .error .jsonDecodeError => acc
            | .error e => .error e
            | .ok (some v) => .ok (some v)
            | .ok none => acc)
          (.ok none) := by
  induction lines with
  | nil => rfl
  | cons line rest ih =>
    by_cases hd : pyStartsWith "data: " line = true
    · rcases hl : loads (pySliceFrom 6 line) with _ | m
      · simpa [toolScanLines, sseDecode, hd, hl] using ih
      · simp only [toolScanLines, sseDecode, hd, if_true, hl, List.foldr]
        rw [← ih]
    · have hd' : pyStartsWith "data: " line = false := by simpa using hd
      simpa [toolScanLines, sseDecode, hd'] using ih

/-- Claim C4 (amended, part that holds): the tool-response line discipline
yields one decoded message per valid data line, in original order — a valid
data line contributes its message at its position, a junk line (non-data,
or a data line whose payload fails to decode) contributes nothing wherever
it sits, and the decoded sequence is exactly the in-order decoding of the
valid data lines.  (The counterexample shows the initialize-response loop
does not enjoy this: there a malformed data line aborts the call.) -/
theorem sseDecode_valid_in_order (loads : String → Option JsonVal) :
    (∀ line rest j, pyStartsWith "data: " line = true →
        loads (pySliceFrom 6 line) = some j →
        sseDecode loads (line :: rest) = j :: sseDecode loads rest)
    ∧ (∀ pre junk post,
        (pyStartsWith "data: " junk = false ∨ loads (pySliceFrom 6 junk) = none) →
        sseDecode loads (pre ++ junk :: post) = sseDecode loads (pre ++ post))
    ∧ (∀ lines, sseDecode loads lines
        = lines.filterMap fun l =>
            if pyStartsWith "data: " l then loads (pySliceFrom 6 l) else none) := by
  refine ⟨?_, ?_, ?_⟩
  · intro line rest j h1 h2
    simp [sseDecode, h1, h2]
  · intro pre junk post hj
    induction pre with
    | nil =>
      rcases hj with hj | hj
      · simp [sseDecode, hj]
      · by_cases hd : pyStartsWith "data: " junk = true
        · simp [sseDecode, hd, hj]
        · have hd' : pyStartsWith "data: " junk = false := by simpa using hd
          simp [sseDecode, hd']
    | cons l pre ih =>
      by_cases hd : pyStartsWith "data: " l = true
      · rcases hl : loads (pySliceFrom 6 l) with _ | m <;>
          simp [sseDecode, hd, hl, ih]
      · have hd' : pyStartsWith "data: " l = false := by simpa using hd
        simp [sseDecode, hd', ih]
  · intro lines
    induction lines with
    | nil => rfl
    | cons l rest ih =>
      by_cases hd : pyStartsWith "data: " l = true
      · rcases hl : loads (pySliceFrom 6 l) with _ | m <;>
          simp [sseDecode, hd, hl, ih]
      · have hd' : pyStartsWith "data: " l = false := by simpa using hd
        simp [sseDecode, hd', ih]

set_option maxRecDepth 100000 in
/-- Witness for C4's amended theorem: a malformed data line in the middle of
the tool-response stream is dropped, leaving exactly the two valid messages
in order. -/
theorem sseDecode_valid_in_order_witness :
    sseDecode loadsFix
        [("data: " ++ c3FirstPayload), "data: bad", ("data: " ++ c3SecondPayload)]
      = sseDecode loadsFix [("data: " ++ c3FirstPayload), ("data: " ++ c3SecondPayload)]
    ∧ sseDecode loadsFix [("data: " ++ c3FirstPayload), ("data: " ++ c3SecondPayload)]
      = [c3FirstMsg, c3SecondMsg] := by
  constructor
  · exact (sseDecode_valid_in_order loadsFix).2.1 [("data: " ++ c3FirstPayload)]
      "data: bad" [("data: " ++ c3SecondPayload)] (Or.inr rfl)
  · exact rfl

set_option maxRecDepth 100000 in
/-- Counterexample for C4 as stated: in the initialize-response loop a
malformed data line is not skipped — `json.loads` raises out of the loop,
the subsequent valid line is never decoded, and the whole call collapses to
the `"An unexpected error occurred"` mapping; with the malformed line
removed and everything else identical, the same call succeeds. -/
theorem initScan_malformed_aborts_cex :
    execute_mcp_tool (some "2034046752") (some "http://localhost:3000/mcp") loadsFix
      "monday_create_item" [("itemTitle", .str "X")]
      (okResp c4InitBodyBad) (postConst (okResp "")) (toolPostConst (okResp successToolBody))
      = .ok (unexpectedErrorResult .jsonDecodeError)
    ∧ execute_mcp_tool (some "2034046752") (some "http://localhost:3000/mcp") loadsFix
      "monday_create_item" [("itemTitle", .str "X")]
      (okResp c4InitBodyGood) (postConst (okResp "")) (toolPostConst (okResp successToolBody))
      = .ok (.obj [("result", .str "Item created successfully")]) :=
  ⟨rfl, rfl⟩

/-! ### Claim C6 — no session token: notification skipped, call proceeds -/

/-- With no session id in the handshake headers, the call's outcome does not
depend on the notification transport at all (the notification is never
sent). -/
theorem runCall_no_session (loads : String → Option JsonVal) (tn : String)
    (enf : List (String × JsonVal)) (st : Nat) (hs : List (String × String))
    (body : String)
    (np np' : List (String × String) → TransportResult)
    (tp : List (String × String) → List (String × JsonVal) → TransportResult)
    (h : findSessionId hs = none) :
    runCall loads tn enf (.ok ⟨st, hs, body⟩) np tp
      = runCall loads tn enf (.ok ⟨st, hs, body⟩) np' tp := by
  unfold runCall
  simp only [h]

/-- With no session id, the call's outcome depends on the tool transport
only through its response to the session-free headers and the enforced
arguments. -/
theorem runCall_no_session_tp (loads : String → Option JsonVal) (tn : String)
    (enf : List (String × JsonVal)) (st : Nat) (hs : List (String × String))
    (body : String)
    (np : List (String × String) → TransportResult)
    (tp tp' : List (String × String) → List (String × JsonVal) → TransportResult)
    (h : findSessionId hs = none)
    (htp : tp (toolHeaders none) enf = tp' (toolHeaders none) enf) :
    runCall loads tn enf (.ok ⟨st, hs, body⟩) np tp
      = runCall loads tn enf (.ok ⟨st, hs, body⟩) np tp' := by
  unfold runCall
  simp only [h, htp]

/-- Claim C6: when no candidate session header (`mcp-session-id`,
`x-session-id`, `session-id`) carries a non-empty value, the
`notifications/initialized` step is skipped entirely (the outcome is
independent of the notification transport), the tool request carries no
`mcp-session-id` header, and the invocation still proceeds: the outcome
depends on the tool transport only through its response to those
session-free headers — absence of a token is not an error. -/
theorem no_session_skips_notify (b u : Option String)
    (loads : String → Option JsonVal) (tn : String) (ps : List (String × JsonVal))
    (st : Nat) (hs : List (String × String)) (body : String)
    (np np' : List (String × String) → TransportResult)
    (tp tp' : List (String × String) → List (String × JsonVal) → TransportResult)
    (h : findSessionId hs = none) :
    execute_mcp_tool b u loads tn ps (.ok ⟨st, hs, body⟩) np tp
      = execute_mcp_tool b u loads tn ps (.ok ⟨st, hs, body⟩) np' tp
    ∧ headerGet (toolHeaders none) "mcp-session-id" = none
    ∧ (tp (toolHeaders none) (enforcedParameters (b.getD "") tn ps)
         = tp' (toolHeaders none) (enforcedParameters (b.getD "") tn ps) →
       execute_mcp_tool b u loads tn ps (.ok ⟨st, hs, body⟩) np tp
         = execute_mcp_tool b u loads tn ps (.ok ⟨st, hs, body⟩) np tp') := by
  refine ⟨?_, rfl, ?_⟩
  · by_cases hc : (!optTruthy b || !optTruthy u) = true
    · simp [execute_mcp_tool, hc]
    · have hc' : (!optTruthy b || !optTruthy u) = false := by simpa using hc
      unfold execute_mcp_tool
      simp only [hc', Bool.false_eq_true, ite_false]
      rw [runCall_no_session loads tn _ st hs body np np' tp h]
  · intro htp
    by_cases hc : (!optTruthy b || !optTruthy u) = true
    · simp [execute_mcp_tool, hc]
    · have hc' : (!optTruthy b || !optTruthy u) = false := by simpa using hc
      unfold execute_mcp_tool
      simp only [hc', Bool.false_eq_true, ite_false]
      rw [runCall_no_session_tp loads tn _ st hs body np tp tp' h htp]

set_option maxRecDepth 100000 in
/-- Witness for C6: with only a `content-type` header in the handshake
response, swapping the notification transport (even for one that would
fail) does not change the outcome, and the session-free tool headers carry
no `mcp-session-id`. -/
theorem no_session_skips_notify_witness :
    execute_mcp_tool (some "2034046752") (some "http://localhost:3000/mcp") loadsFix
      "monday_create_item" [("itemTitle", .str "X")]
      (.ok ⟨200, [("content-type", "application/json")], ""⟩)
      (postConst (.connError "notification must not be sent"))
      (toolPostConst (okResp successToolBody))
      = execute_mcp_tool (some "2034046752") (some "http://localhost:3000/mcp") loadsFix
      "monday_create_item" [("itemTitle", .str "X")]
      (.ok ⟨200, [("content-type", "application/json")], ""⟩)
      (postConst (okResp ""))
      (toolPostConst (okResp successToolBody))
    ∧ headerGet (toolHeaders none) "mcp-session-id" = none := by
  have h := no_session_skips_notify (some "2034046752") (some "http://localhost:3000/mcp")
    loadsFix "monday_create_item" [("itemTitle", .str "X")]
    200 [("content-type", "application/json")] ""
    (postConst (.connError "notification must not be sent")) (postConst (okResp ""))
    (toolPostConst (okResp successToolBody)) (toolPostConst (okResp successToolBody)) rfl
  exact ⟨h.1, h.2.1⟩

/-! ### Claim C7 — the outcome mapping's observable keys -/

/-- `successResult` has exactly one outcome key. -/
theorem exactlyOneKey_success : exactlyOneKey successResult = true := rfl

/-- `parseFailResult` has exactly one outcome key. -/
theorem exactlyOneKey_parseFail : exactlyOneKey parseFailResult = true := rfl

/-- A singleton `result` mapping has exactly one outcome key. -/
theorem exactlyOneKey_result (v : JsonVal) :
    exactlyOneKey (.obj [("result", v)]) = true := rfl

/-- A singleton `error` mapping has exactly one outcome key. -/
theorem exactlyOneKey_error (v : JsonVal) :
    exactlyOneKey (.obj [("error", v)]) = true := rfl

/-- The transport-limitation mapping has exactly one outcome key. -/
theorem exactlyOneKey_transportIssue (tn : String) :
    exactlyOneKey (transportIssueResult tn) = true := rfl

/-- The HTTP-status error mapping has exactly one outcome key. -/
theorem exactlyOneKey_httpError (c : Nat) :
    exactlyOneKey (httpErrorResult c) = true := rfl

/-- The unexpected-error mapping has exactly one outcome key. -/
theorem exactlyOneKey_unexpected (e : PyExc) :
    exactlyOneKey (unexpectedErrorResult e) = true := rfl

/-- Every value returned by the per-message body either has exactly one
outcome key or is the verbatim `json.loads` of a content text that starts
with a brace or bracket. -/
theorem toolLineBody_ok_shape (loads : String → Option JsonVal) (tn : String)
    (m v : JsonVal) (h : toolLineBody loads tn m = .ok (some v)) :
    exactlyOneKey v = true
    ∨ ∃ s, (pyStartsWith "\x7b" (pyStrip s) || pyStartsWith "[" (pyStrip s)) = true
        ∧ loads s = some v := by
  unfold toolLineBody at h
  repeat' split at h
  all_goals
    first
    | (simp only [Except.ok.injEq, Option.some.injEq] at h
       subst h
       first
       | exact Or.inl rfl
       | exact Or.inr ⟨_, by assumption, by assumption⟩)
    | simp at h

/-- Every value committed by the tool-response loop satisfies the same
shape property. -/
theorem toolScanLines_ok_shape (loads : String → Option JsonVal) (tn : String)
    (lines : List String) (v : JsonVal)
    (h : toolScanLines loads tn lines = .ok (some v)) :
    exactlyOneKey v = true
    ∨ ∃ s, (pyStartsWith "\x7b" (pyStrip s) || pyStartsWith "[" (pyStrip s)) = true
        ∧ loads s = some v := by
  induction lines with
  | nil => simp [toolScanLines] at h
  | cons line rest ih =>
    unfold toolScanLines at h
    repeat' split at h
    all_goals
      first
      | exact ih h
      | (simp only [Except.ok.injEq, Option.some.injEq] at h
         subst h
         exact toolLineBody_ok_shape _ _ _ _ (by assumption))
      | simp at h

/-- Every successful value of the full `try` body satisfies the shape
property. -/
theorem runCall_ok_shape (loads : String → Option JsonVal) (tn : String)
    (enf : List (String × JsonVal)) (i : TransportResult)
    (np : List (String × String) → TransportResult)
    (tp : List (String × String) → List (String × JsonVal) → TransportResult)
    (v : JsonVal) (h : runCall loads tn enf i np tp = .ok v) :
    exactlyOneKey v = true
    ∨ ∃ s, (pyStartsWith "\x7b" (pyStrip s) || pyStartsWith "[" (pyStrip s)) = true
        ∧ loads s = some v := by
  unfold runCall at h
  repeat' split at h
  all_goals
    first
    | (simp only [Except.ok.injEq] at h
       subst h
       first
       | exact Or.inl rfl
       | exact toolScanLines_ok_shape _ _ _ _ (by assumption))
    | simp at h

/-- Claim C7 (amended): with configuration present, every outcome of
`execute_mcp_tool` either contains exactly one of the keys `result` and
`error`, or is the verbatim JSON parse of a content text beginning with a
brace or bracket (the `return json.loads(text_content)` path), in which
case it may contain neither key (or not even be a mapping). -/
theorem execute_outcome_keys (b u : Option String)
    (loads : String → Option JsonVal) (tn : String) (ps : List (String × JsonVal))
    (i : TransportResult) (np : List (String × String) → TransportResult)
    (tp : List (String × String) → List (String × JsonVal) → TransportResult)
    (hb : optTruthy b = true) (hu : optTruthy u = true) (v : JsonVal)
    (h : execute_mcp_tool b u loads tn ps i np tp = .ok v) :
    exactlyOneKey v = true
    ∨ ∃ s, (pyStartsWith "\x7b" (pyStrip s) || pyStartsWith "[" (pyStrip s)) = true
        ∧ loads s = some v := by
  have hcond : (!optTruthy b || !optTruthy u) = false := by rw [hb, hu]; rfl
  unfold execute_mcp_tool at h
  simp only [hcond, Bool.false_eq_true, ite_false, Except.ok.injEq] at h
  rcases hrc : runCall loads tn (enforcedParameters (b.getD "") tn ps) i np tp with e | w
  · rw [hrc] at h
    subst h
    cases e <;> exact Or.inl rfl
  · rw [hrc] at h
    subst h
    exact runCall_ok_shape loads tn _ i np tp w hrc

set_option maxRecDepth 100000 in
/-- Witness for C7's amended theorem, at a run that returns a plain success
mapping. -/
theorem execute_outcome_keys_witness :
    exactlyOneKey (.obj [("result", .str "Item created successfully")]) = true
    ∨ ∃ s, (pyStartsWith "\x7b" (pyStrip s) || pyStartsWith "[" (pyStrip s)) = true
        ∧ loadsFix s = some (.obj [("result", .str "Item created successfully")]) :=
  execute_outcome_keys (some "2034046752") (some "http://localhost:3000/mcp") loadsFix
    "monday_create_item" [("itemTitle", .str "X")]
    (okResp "") (postConst (okResp "")) (toolPostConst (okResp successToolBody))
    rfl rfl (.obj [("result", .str "Item created successfully")]) rfl

set_option maxRecDepth 100000 in
/-- Counterexample for C7 as stated: a server content text that is itself a
JSON object (`\x7b"a": 1\x7d`) is returned verbatim by `execute_mcp_tool`, and
the resulting mapping contains neither a `result` key nor an `error` key. -/
theorem execute_outcome_keys_cex :
    execute_mcp_tool (some "2034046752") (some "http://localhost:3000/mcp") loadsFix
      "monday_create_item" [("itemTitle", .str "X")]
      (okResp "") (postConst (okResp "")) (toolPostConst (okResp c7ToolBody))
      = .ok (.obj [("a", .num 1)])
    ∧ pyLookup [("a", (.num 1 : JsonVal))] "result" = none
    ∧ pyLookup [("a", (.num 1 : JsonVal))] "error" = none :=
  ⟨rfl, rfl, rfl⟩

/-! ### Claim C10 — missing or empty content yields the fixed success text -/

/-- Claim C10: when the first decoded tool-response message carries a
`result` object that either has no `content` entry or an empty `content`
list, `execute_mcp_tool` returns the fixed mapping
`\x7b"result": "Tool executed successfully"\x7d` — a success outcome even though
the server supplied no payload text. -/
theorem empty_content_success (b u : Option String)
    (loads : String → Option JsonVal) (tn : String) (ps : List (String × JsonVal))
    (st1 st2 : Nat) (hs ths : List (String × String))
    (ibody line tbody : String) (ms fs : List (String × JsonVal))
    (np : List (String × String) → TransportResult)
    (tp : List (String × String) → List (String × JsonVal) → TransportResult)
    (hb : optTruthy b = true) (hu : optTruthy u = true)
    (hst1 : 200 ≤ st1 ∧ st1 < 300) (hst2 : 200 ≤ st2 ∧ st2 < 300)
    (hinit : pyLines ibody = [""])
    (hsess : findSessionId hs = none)
    (htp : tp (toolHeaders none) (enforcedParameters (b.getD "") tn ps)
      = .ok ⟨st2, ths, tbody⟩)
    (hbody : pyLines tbody = [line])
    (hline : pyStartsWith "data: " line = true)
    (hparse : loads (pySliceFrom 6 line) = some (.obj ms))
    (hres : pyLookup ms "result" = some (.obj fs))
    (hcontent : pyLookup fs "content" = none ∨ pyLookup fs "content" = some (.arr [])) :
    execute_mcp_tool b u loads tn ps (.ok ⟨st1, hs, ibody⟩) np tp = .ok successResult := by
  have hcond : (!optTruthy b || !optTruthy u) = false := by rw [hb, hu]; rfl
  have hns1 : ¬ (st1 < 200 ∨ 300 ≤ st1) := by omega
  have hns2 : ¬ (st2 < 200 ∨ 300 ≤ st2) := by omega
  have hinitscan : initScanLines loads (pyLines ibody) = .ok () := by
    rw [hinit]; rfl
  have htlb : toolLineBody loads tn (.obj ms) = .ok (some successResult) := by
    unfold toolLineBody
    simp only [pyIn, hres, pyGetItem, Option.isSome_some, Except.ok.injEq]
    rcases hcontent with hc | hc
    · simp [hc]
    · simp [hc, pyTruthy]
  have hscan : toolScanLines loads tn (pyLines tbody) = .ok (some successResult) := by
    rw [hbody]
    unfold toolScanLines
    simp only [hline, if_true, hparse, htlb]
  unfold execute_mcp_tool
  simp only [hcond, Bool.false_eq_true, ite_false, Except.ok.injEq]
  unfold runCall
  simp only [hns1, ite_false, hinitscan, hsess, htp, hns2, hscan]

set_option maxRecDepth 100000 in
/-- Witness for C10: a concrete run whose tool response carries
`"result": \x7b"content": []\x7d` returns the fixed success mapping. -/
theorem empty_content_success_witness :
    execute_mcp_tool (some "2034046752") (some "http://localhost:3000/mcp") loadsFix
      "monday_create_item" [("itemTitle", .str "X")]
      (.ok ⟨200, [], ""⟩) (postConst (okResp ""))
      (toolPostConst (okResp emptyContentToolBody))
      = .ok successResult :=
  empty_content_success (some "2034046752") (some "http://localhost:3000/mcp") loadsFix
    "monday_create_item" [("itemTitle", .str "X")]
    200 200 [] [] "" ("data: " ++ emptyContentPayload) emptyContentToolBody
    [("jsonrpc", .str "2.0"), ("id", .num 2), ("result", .obj [("content", .arr [])])]
    [("content", .arr [])]
    (postConst (okResp "")) (toolPostConst (okResp emptyContentToolBody))
    rfl rfl (by omega) (by omega) rfl rfl rfl rfl rfl rfl rfl (Or.inr rfl)

/-- The program corroborates the tightened 2xx bound: at a 301 tool-call
response, `raise_for_status` raises and the outcome is the HTTP-error
mapping, not the fixed success mapping. -/
theorem redirect_status_is_http_error :
    execute_mcp_tool (some "2034046752") (some "http://localhost:3000/mcp") loadsFix
      "monday_create_item" [("itemTitle", .str "X")]
      (.ok ⟨200, [], ""⟩) (postConst (okResp ""))
      (toolPostConst (.ok ⟨301, [], emptyContentToolBody⟩))
      = .ok (httpErrorResult 301) := rfl

end FridayJarvis
